import Mathlib

/-!
Verification development for the GST portal automation core
(`services/web_automation_service.py`, `services/gst_portal_service.py`,
`utils/validation_utils.py`, `models/client_data.py`,
`gui/main_window.py`, `gui/components/credit_ledger_options.py`).

The Python code is shallowly embedded: pure validation functions become Lean
functions on strings and integers; the Selenium-facing code is embedded by
abstracting the live browser page into an environment record that fixes the
outcome of each primitive interaction (immediate lookup, clickable wait,
presence wait, URL poll, per-step click chains), while the control flow of the
Python methods is translated statement by statement.  The workflow model
additionally records a trace of the steps it attempts and threads the
driver-handle state, so that "never attempts a later strategy/step" and
"no active process handle remains" become provable statements.
-/

/-! ## Exceptions

`PExc` models the Python exceptions that can surface inside
`find_element_with_fallbacks`: the Selenium `TimeoutException` versus any other
exception.  The `Nat` tag distinguishes individual exception instances so that
"chained from the last underlying exception" is expressible. -/

inductive PExc where
  | timeoutExc : Nat → PExc
  | otherExc : Nat → PExc
  deriving DecidableEq, Repr

/-! ## Locator strategies (`web_automation_service.py`)

`By` models `selenium.webdriver.common.by.By`; a locator strategy is the
`(by, locator)` tuple passed to `find_element_with_fallbacks`. -/

inductive By where
  | id
  | name
  | cssSelector
  | xpath
  | linkText
  | className
  deriving DecidableEq, Repr

structure LocatorStrategy where
  method : By
  locator : String
  deriving DecidableEq, Repr

/-- Abstraction of the live page (plus the fixed `wait_time`): for each
strategy it fixes the outcome of `driver.find_elements` (the immediate,
non-waiting lookup, which may itself raise), of the
`element_to_be_clickable` wait and of the `presence_of_element_located`
wait.  Elements are drawn from an abstract type `α`. -/
structure Page (α : Type) where
  findElements : LocatorStrategy → Except PExc (List α)
  clickableWait : LocatorStrategy → Except PExc α
  presenceWait : LocatorStrategy → Except PExc α

/-- One iteration of the loop body of
`WebAutomationService.find_element_with_fallbacks` (lines 264-301):

1. `driver.find_elements` is tried first; an exception here is caught and
   logged, an empty result falls through; a non-empty result returns its
   first element.
2. Otherwise wait for `element_to_be_clickable`; on success return the
   element.  A `TimeoutException` here falls back to the
   `presence_of_element_located` wait; any other exception propagates to the
   per-strategy handler.
3. A failure of the presence wait (timeout or otherwise) propagates to the
   per-strategy handler.

The returned `.error ex` is the exception recorded into `last_exception`
for this strategy. -/
def attemptStrategy {α : Type} (page : Page α) (s : LocatorStrategy) : Except PExc α :=
  let immediate : Option α :=
    match page.findElements s with
    | .ok (e :: _) => some e
    | .ok [] => none
    | .error _ => none
  match immediate with
  | some e => .ok e
  | none =>
    match page.clickableWait s with
    | .ok e => .ok e
    | .error (.timeoutExc _) =>
      match page.presenceWait s with
      | .ok e => .ok e
      | .error ex => .error ex
    | .error (.otherExc t) => .error (.otherExc t)

/-- The message of the `ElementNotFoundError` raised at line 304: the
Python f-string interpolating the description and the strategy count into
the fixed text below. -/
def elementNotFoundMessage (description : String) (n : Nat) : String :=
  "Could not find " ++ description ++ " with any of the " ++ toString n ++
    " locator strategies"

/-- Payload of the `ElementNotFoundError` raised when every strategy fails:
the formatted message and the `__cause__` installed by
`raise ElementNotFoundError(error_msg) from last_exception`. -/
structure ElementNotFoundError where
  message : String
  cause : Option PExc
  deriving DecidableEq, Repr

inductive ResolveResult (α : Type) where
  | found : α → ResolveResult α
  | notFound : ElementNotFoundError → ResolveResult α
  deriving DecidableEq, Repr

/-- The strategy loop of `find_element_with_fallbacks`.  `total` is
`len(locator_strategies)` (used only in the final error message), `last` is
the running `last_exception`, and `attempted` counts how many strategies the
loop has entered so far (the instrumentation that makes "never attempts
strategies k+1..N" provable). -/
def resolveAux {α : Type} (page : Page α) (description : String) (total : Nat) :
    List LocatorStrategy → Option PExc → Nat → ResolveResult α × Nat
  | [], last, attempted =>
    (.notFound ⟨elementNotFoundMessage description total, last⟩, attempted)
  | s :: rest, _last, attempted =>
    match attemptStrategy page s with
    | .ok e => (.found e, attempted + 1)
    | .error ex => resolveAux page description total rest (some ex) (attempted + 1)

/-- Model of `WebAutomationService.find_element_with_fallbacks` (lines 237-310),
returning the result together with the number of strategies attempted. -/
def find_element_with_fallbacks {α : Type} (page : Page α)
    (strategies : List LocatorStrategy) (description : String) :
    ResolveResult α × Nat :=
  resolveAux page description strategies.length strategies none 0

/-! ### Resolver lemmas -/

/-- A prefix of strategies that all fail is skipped over by the loop,
incrementing the attempt counter once per failed strategy. -/
theorem resolveAux_skip {α : Type} (page : Page α) (description : String)
    (total : Nat) (pre rest : List LocatorStrategy) (last : Option PExc) (a : Nat)
    (h : ∀ s ∈ pre, ∃ ex, attemptStrategy page s = .error ex) :
    ∃ last2, resolveAux page description total (pre ++ rest) last a =
      resolveAux page description total rest last2 (a + pre.length) := by
  induction pre generalizing last a with
  | nil => exact ⟨last, by simp⟩
  | cons s pre ih =>
    obtain ⟨ex, hex⟩ := h s (List.mem_cons_self s pre)
    obtain ⟨last2, hl⟩ := ih (some ex) (a + 1)
      (fun t ht => h t (List.mem_cons_of_mem s ht))
    refine ⟨last2, ?_⟩
    simp only [List.cons_append, resolveAux, hex, List.length_cons, List.append_eq]
    rw [hl]
    congr 1
    omega

/-- C1: if the strategies before position k all fail to resolve (their
immediate lookup, clickable wait and presence wait all fail) and the strategy
at position k succeeds by any of the three paths, then
`find_element_with_fallbacks` returns the element found by strategy k and
attempts exactly k+1 strategies — the strategies after position k (an
arbitrary suffix `post`) are never attempted. -/
theorem resolver_first_success_short_circuits {α : Type} (page : Page α)
    (pre post : List LocatorStrategy) (s : LocatorStrategy) (e : α)
    (description : String)
    (hpre : ∀ t ∈ pre, ∃ ex, attemptStrategy page t = .error ex)
    (hs : attemptStrategy page s = .ok e) :
    find_element_with_fallbacks page (pre ++ s :: post) description =
      (.found e, pre.length + 1) := by
  unfold find_element_with_fallbacks
  obtain ⟨last2, hskip⟩ := resolveAux_skip page description
    (pre ++ s :: post).length pre (s :: post) none 0 hpre
  rw [hskip]
  simp [resolveAux, hs]

/-- C1 witness: a concrete two-strategy set whose first strategy fails
(timeout on both waits) and whose second succeeds immediately; a third
strategy is present and is not attempted. -/
theorem resolver_first_success_short_circuits_witness :
    find_element_with_fallbacks
      (Page.mk
        (fun s => if s.locator = "b" then .ok [7] else .ok [])
        (fun _ => .error (.timeoutExc 0))
        (fun _ => .error (.timeoutExc 1)))
      [⟨By.id, "a"⟩, ⟨By.xpath, "b"⟩, ⟨By.cssSelector, "c"⟩] "element" =
      (.found 7, 2) := by
  exact resolver_first_success_short_circuits _ [⟨By.id, "a"⟩] [⟨By.cssSelector, "c"⟩]
    ⟨By.xpath, "b"⟩ 7 "element"
    (by intro t ht; simp at ht; subst ht; exact ⟨.timeoutExc 1, rfl⟩)
    rfl

/-- C2: if every strategy fails (for each one, the immediate lookup, the
clickable wait and the presence wait all fail) and the last strategy ends in
a `TimeoutException`, the resolver returns an `ElementNotFoundError` whose
message carries the description and the total number of strategies tried,
chained (via `raise ... from last_exception`) from that last underlying
timeout exception. -/
theorem resolver_exhaustion_raises_not_found {α : Type} (page : Page α)
    (pre : List LocatorStrategy) (s : LocatorStrategy) (t : Nat)
    (description : String)
    (hpre : ∀ u ∈ pre, ∃ ex, attemptStrategy page u = .error ex)
    (hs : attemptStrategy page s = .error (.timeoutExc t)) :
    find_element_with_fallbacks page (pre ++ [s]) description =
      (.notFound ⟨elementNotFoundMessage description (pre.length + 1),
        some (.timeoutExc t)⟩, pre.length + 1) := by
  unfold find_element_with_fallbacks
  obtain ⟨last2, hskip⟩ := resolveAux_skip page description
    (pre ++ [s]).length pre [s] none 0 hpre
  rw [hskip]
  simp [resolveAux, hs]

/-- C2 witness: a concrete page on which both strategies of a two-strategy
set fail; the raised error names the description, says 2 strategies were
tried, and is chained from the second (last) timeout. -/
theorem resolver_exhaustion_raises_not_found_witness :
    find_element_with_fallbacks
      (Page.mk (α := Nat)
        (fun _ => .ok [])
        (fun _ => .error (.timeoutExc 5))
        (fun s => if s.locator = "a" then .error (.timeoutExc 6) else .error (.timeoutExc 7)))
      [⟨By.id, "a"⟩, ⟨By.xpath, "b"⟩] "CAPTCHA field" =
      (.notFound ⟨"Could not find CAPTCHA field with any of the 2 locator strategies",
        some (.timeoutExc 7)⟩, 2) := by
  exact resolver_exhaustion_raises_not_found _ [⟨By.id, "a"⟩] ⟨By.xpath, "b"⟩ 7
    "CAPTCHA field"
    (by intro u hu; simp at hu; subst hu; exact ⟨.timeoutExc 6, rfl⟩)
    rfl

/-! ## Exceptions of the portal workflow layer

`WfExc` models the exception classes that steer control flow in
`gst_portal_service.py` / `web_automation_service.py`:
`ElementNotFoundError`, `WebDriverInitializationError`, `WebDriverException`,
`GSTPortalLoginError` and `GSTPortalNavigationError`. -/

inductive WfExc where
  | elementNotFound
  | webDriverInit
  | webDriverErr
  | gstLoginErr
  | gstNavErr
  deriving DecidableEq, Repr

/-! ## `wait_for_url_change` (C3)

The URL over time is abstracted as a function from poll ticks to the current
URL; the Selenium `EC.url_contains(part)` check is the Python substring test
`part in url`, modelled on the character lists of the strings. -/

def listStartsWith {α : Type} [DecidableEq α] : List α → List α → Bool
  | _, [] => true
  | [], _ :: _ => false
  | a :: as, b :: bs => if a = b then listStartsWith as bs else false

/-- Whether `sub` occurs as a contiguous segment of `l`; the model of the
Python test `sub in l` on strings. -/
def listHasSeg {α : Type} [DecidableEq α] (sub : List α) : List α → Bool
  | [] => listStartsWith [] sub
  | a :: as => listStartsWith (a :: as) sub || listHasSeg sub as

def strContains (s sub : String) : Bool := listHasSeg sub.data s.data

/-- Model of `WebDriverWait(driver, timeout).until(cond)`: poll ticks `0..timeout`;
`some t` is the first tick at which the condition holds, `none` is a
`TimeoutException`. -/
def webDriverWaitUntil (cond : Nat → Bool) (timeout : Nat) : Option Nat :=
  (List.range (timeout + 1)).find? cond

/-- Model of `WebAutomationService.wait_for_url_change` (lines 386-408): raise
`WebDriverException` when the driver is uninitialized; otherwise wait for
the URL to contain `part`, returning `True` on success and — catching the
`TimeoutException` — `False` on timeout. -/
def wait_for_url_change (driverInit : Bool) (urls : Nat → String)
    (part : String) (timeout : Nat) : Except WfExc Bool :=
  if !driverInit then .error .webDriverErr
  else
    match webDriverWaitUntil (fun t => strContains (urls t) part) timeout with
    | some _ => .ok true
    | none => .ok false

theorem webDriverWaitUntil_isSome (cond : Nat → Bool) (timeout : Nat) :
    (webDriverWaitUntil cond timeout).isSome = true ↔
      ∃ t, t ≤ timeout ∧ cond t = true := by
  unfold webDriverWaitUntil
  rw [List.find?_isSome]
  constructor
  · rintro ⟨x, hx, hc⟩
    exact ⟨x, Nat.lt_succ_iff.mp (List.mem_range.mp hx), hc⟩
  · rintro ⟨t, ht, hc⟩
    exact ⟨t, List.mem_range.mpr (Nat.lt_succ_of_le ht), hc⟩

/-- C3: with an initialized driver, `wait_for_url_change` returns `True`
exactly when the URL comes to contain the substring within the timeout,
returns `False` exactly when it does not (a timeout), and never raises; with
an uninitialized driver it raises `WebDriverException`. -/
theorem wait_for_url_change_timeout_is_boolean (urls : Nat → String)
    (part : String) (timeout : Nat) :
    (wait_for_url_change true urls part timeout = .ok true ↔
      ∃ t, t ≤ timeout ∧ strContains (urls t) part = true)
  ∧ (wait_for_url_change true urls part timeout = .ok false ↔
      ¬ ∃ t, t ≤ timeout ∧ strContains (urls t) part = true)
  ∧ (∃ b, wait_for_url_change true urls part timeout = .ok b)
  ∧ wait_for_url_change false urls part timeout = .error .webDriverErr := by
  have hiff := webDriverWaitUntil_isSome (fun t => strContains (urls t) part) timeout
  unfold wait_for_url_change
  cases hfind : webDriverWaitUntil (fun t => strContains (urls t) part) timeout with
  | none =>
    rw [hfind] at hiff
    simp only [Option.isSome_none, Bool.false_eq_true, false_iff] at hiff
    refine ⟨by simp [hiff], by simp [hiff], ⟨false, by simp⟩, by simp⟩
  | some t0 =>
    rw [hfind] at hiff
    simp only [Option.isSome_some, true_iff] at hiff
    refine ⟨by simp [hiff], by simp [hiff], ⟨true, by simp⟩, by simp⟩

/-- C3 witness: on a trace that reaches the welcome URL at tick 2, the wait
returns `True`; the hypothesis-shaped right-hand sides are discharged at
concrete inputs. -/
theorem wait_for_url_change_timeout_is_boolean_witness :
    wait_for_url_change true
      (fun t => if t < 2 then "https://www.gst.gov.in/"
        else "https://services.gst.gov.in/services/auth/fowelcome")
      "services/auth/fowelcome" 5 = .ok true := by
  exact (wait_for_url_change_timeout_is_boolean _ _ 5).1.mpr
    ⟨2, by decide, by decide⟩

/-! ## The orchestrated workflow (`gst_portal_service.py`)

The browser and portal are abstracted into a `PortalEnv` fixing the outcome
of each primitive interaction; the control flow of
`GSTPortalService.execute_automation_workflow` and of the step methods it
calls is translated statement by statement.  The service state carries the
driver handle (`self.driver`, `True` = a live process handle is held) and an
instrumentation log of the steps the workflow attempts, so that "no later
step is executed" is provable. -/

inductive WfStep where
  | initDriver
  | navPortal
  | clickLogin
  | fillCreds
  | clickCaptcha
  | urlPoll
  | popupClose
  | returnsDash
  | filterDash
  | gstr2bInitialBtn
  | gstr2bGenerateBtn
  | creditLedger
  | cashLedger
  | closeDriver
  deriving DecidableEq, Repr

structure SvcState where
  driver : Bool
  log : List WfStep
  deriving DecidableEq, Repr

def initState : SvcState := ⟨false, []⟩

def recordStep (st : SvcState) (s : WfStep) : SvcState :=
  { st with log := st.log ++ [s] }

/-- Outcomes of the primitive browser interactions of one workflow run.
Each field is the outcome the live portal would give to the corresponding
Python call; `.error e` means that call raises `e`. -/
structure PortalEnv where
  initDriver : Except WfExc Unit
  navPortal : Except WfExc Unit
  clickLoginLink : Except WfExc Unit
  fillCredentials : Except WfExc Unit
  clickCaptchaField : Except WfExc Unit
  captchaUrlChanged : Bool
  popupCloseOutcome : Except WfExc Unit
  navReturnsDashboard : Except WfExc Unit
  filterDashboard : Except WfExc Unit
  gstr2bInitialBtn : Except WfExc Unit
  gstr2bGenerateBtn : Except WfExc Unit
  creditLedgerNav : Except WfExc Unit
  cashLedgerNav : Except WfExc Unit
  quitOutcome : Except WfExc Unit

/-- Model of `AutomationSettings` (`models/client_data.py` lines 52-97). -/
structure AutomationSettings where
  justLogin : Bool
  returnsDashboard : Bool
  downloadGstr2b : Bool
  accessCreditLedger : Bool
  accessCashLedger : Bool
  deriving DecidableEq, Repr

/-- Model of `AutomationSettings.has_actions_selected`. -/
def AutomationSettings.hasActionsSelected (s : AutomationSettings) : Bool :=
  s.justLogin || s.returnsDashboard || s.downloadGstr2b ||
    s.accessCreditLedger || s.accessCashLedger

/-- Model of `AutomationSettings.requires_returns_dashboard`. -/
def AutomationSettings.requiresReturnsDashboard (s : AutomationSettings) : Bool :=
  s.returnsDashboard || s.downloadGstr2b

/-- Model of `WebAutomationService.initialize_webdriver` (lines 158-187): on success
the service holds a live driver handle; on failure a
`WebDriverInitializationError` is raised and no handle is held. -/
def initialize_webdriver (env : PortalEnv) (st : SvcState) :
    Except WfExc Unit × SvcState :=
  let st1 := recordStep st .initDriver
  match env.initDriver with
  | .ok _ => (.ok (), { st1 with driver := true })
  | .error _ => (.error .webDriverInit, st1)

/-- Model of `WebAutomationService.close_webdriver` (lines 189-199): when a driver
handle is held, `driver.quit()` is attempted inside a `try` whose `except`
swallows any exception, and the `finally` clears the handle either way; when
no handle is held the method does nothing.  The return type (a plain state,
no error channel) reflects that the method never raises. -/
def close_webdriver (quitOutcome : Except WfExc Unit) (st : SvcState) : SvcState :=
  if st.driver then
    match quitOutcome with
    | .ok _ => { recordStep st .closeDriver with driver := false }
    | .error _ => { recordStep st .closeDriver with driver := false }
  else st

/-- Model of `GSTPortalService.handle_captcha_input` (lines 162-214): the overlay wait
is non-fatal (not modelled as a step); focusing the CAPTCHA field raises into
the catch-all which re-raises `GSTPortalLoginError`; otherwise the result of
`wait_for_url_change(WELCOME_PAGE_URL_PART, WAIT_TIME_MANUAL_CAPTCHA)` is
returned as a boolean. -/
def handle_captcha_input (env : PortalEnv) (st : SvcState) :
    Except WfExc Bool × SvcState :=
  let st1 := recordStep st .clickCaptcha
  match env.clickCaptchaField with
  | .error _ => (.error .gstLoginErr, st1)
  | .ok _ =>
    let st2 := recordStep st1 .urlPoll
    (.ok env.captchaUrlChanged, st2)

/-- Model of `GSTPortalService.handle_post_login_popups` (lines 216-234): a missing
popup (`ElementNotFoundError`) is normal, and any other exception is only
logged — the method never propagates a failure. -/
def handle_post_login_popups (env : PortalEnv) (st : SvcState) : SvcState :=
  let st1 := recordStep st .popupClose
  match env.popupCloseOutcome with
  | .ok _ => st1
  | .error _ => st1

/-- Continuation of `perform_login` after `fill_login_credentials`: a raised
exception from the CAPTCHA step becomes `GSTPortalLoginError`, a `False`
outcome is returned as a boolean, and on `True` the post-login popup is
dismissed. -/
def loginTail (env : PortalEnv) (r : Except WfExc Bool × SvcState) :
    Except WfExc Bool × SvcState :=
  match r with
  | (.error _, st4) => (.error .gstLoginErr, st4)
  | (.ok false, st4) => (.ok false, st4)
  | (.ok true, st4) => (.ok true, handle_post_login_popups env st4)

/-- Model of `GSTPortalService.perform_login` (lines 236-266): navigation, the login
link, the overlay wait (non-fatal), the credential fill and the CAPTCHA step
run in sequence inside a `try` whose catch-all re-raises
`GSTPortalLoginError`; a `False` from the CAPTCHA step is returned as a
boolean, not raised. -/
def perform_login (env : PortalEnv) (st : SvcState) :
    Except WfExc Bool × SvcState :=
  let st1 := recordStep st .navPortal
  match env.navPortal with
  | .error _ => (.error .gstLoginErr, st1)
  | .ok _ =>
    let st2 := recordStep st1 .clickLogin
    match env.clickLoginLink with
    | .error _ => (.error .gstLoginErr, st2)
    | .ok _ =>
      let st3 := recordStep st2 .fillCreds
      match env.fillCredentials with
      | .error _ => (.error .gstLoginErr, st3)
      | .ok _ => loginTail env (handle_captcha_input env st3)

/-- The generate-Excel part of `GSTPortalService.download_gstr2b`
(lines 438-453): an `ElementNotFoundError` from the generate-button click is
caught and only logged — the method returns normally; any other exception
escapes to the outer handler, which re-raises `GSTPortalNavigationError`. -/
def gstr2bGenerate (env : PortalEnv) (st : SvcState) :
    Except WfExc Unit × SvcState :=
  let st1 := recordStep st .gstr2bGenerateBtn
  match env.gstr2bGenerateBtn with
  | .ok _ => (.ok (), st1)
  | .error .elementNotFound => (.ok (), st1)
  | .error _ => (.error .gstNavErr, st1)

/-- Model of `GSTPortalService.download_gstr2b` (lines 415-458): the initial download
button is optional (`ElementNotFoundError` is caught, the flow continues);
then the generate-Excel click runs.  Any non-`ElementNotFoundError`
exception reaches the outer handler and is re-raised as
`GSTPortalNavigationError`. -/
def download_gstr2b (env : PortalEnv) (st : SvcState) :
    Except WfExc Unit × SvcState :=
  let st1 := recordStep st .gstr2bInitialBtn
  match env.gstr2bInitialBtn with
  | .ok _ => gstr2bGenerate env st1
  | .error .elementNotFound => gstr2bGenerate env st1
  | .error _ => (.error .gstNavErr, st1)

/-- Model of `GSTPortalService.navigate_to_returns_dashboard` +
`filter_returns_dashboard` + the conditional `download_gstr2b` call
(workflow lines 669-674); dashboard failures re-raise as
`GSTPortalNavigationError`. -/
def returnsDashboardFlow (env : PortalEnv) (settings : AutomationSettings)
    (st : SvcState) : Except WfExc Unit × SvcState :=
  let st1 := recordStep st .returnsDash
  match env.navReturnsDashboard with
  | .error _ => (.error .gstNavErr, st1)
  | .ok _ =>
    let st2 := recordStep st1 .filterDash
    match env.filterDashboard with
    | .error _ => (.error .gstNavErr, st2)
    | .ok _ =>
      if settings.downloadGstr2b then download_gstr2b env st2 else (.ok (), st2)

/-- Model of `GSTPortalService.navigate_to_credit_ledger` (lines 460-519): the click
chain (date-setting failures are swallowed inside
`_set_credit_ledger_dates`); a failure re-raises
`GSTPortalNavigationError`. -/
def navigate_to_credit_ledger (env : PortalEnv) (st : SvcState) :
    Except WfExc Unit × SvcState :=
  let st1 := recordStep st .creditLedger
  match env.creditLedgerNav with
  | .ok _ => (.ok (), st1)
  | .error _ => (.error .gstNavErr, st1)

/-- Model of `GSTPortalService.navigate_to_cash_ledger` (lines 579-633). -/
def navigate_to_cash_ledger (env : PortalEnv) (st : SvcState) :
    Except WfExc Unit × SvcState :=
  let st1 := recordStep st .cashLedger
  match env.cashLedgerNav with
  | .ok _ => (.ok (), st1)
  | .error _ => (.error .gstNavErr, st1)

/-- Sequencing of one conditional workflow step: a raised exception aborts
the rest of the `try` body, a normal return continues with the next
statement. -/
def seqActionUnit (r : Except WfExc Unit × SvcState)
    (k : SvcState → Except WfExc Bool × SvcState) :
    Except WfExc Bool × SvcState :=
  match r with
  | (.error e, st) => (.error e, st)
  | (.ok _, st) => k st

/-- The action-selection part of `execute_automation_workflow`
(lines 663-685), entered after a successful login: the just-login
short-circuit, then the Returns-Dashboard block, the credit-ledger block and
the cash-ledger block in sequence, each guarded by its settings flag. -/
def runSelectedActions (env : PortalEnv) (settings : AutomationSettings)
    (st : SvcState) : Except WfExc Bool × SvcState :=
  if settings.justLogin && !settings.requiresReturnsDashboard &&
      !settings.accessCreditLedger && !settings.accessCashLedger then
    (.ok true, st)
  else
    seqActionUnit (if settings.requiresReturnsDashboard then
        returnsDashboardFlow env settings st else (.ok (), st)) fun st1 =>
      seqActionUnit (if settings.accessCreditLedger then
          navigate_to_credit_ledger env st1 else (.ok (), st1)) fun st2 =>
        seqActionUnit (if settings.accessCashLedger then
            navigate_to_cash_ledger env st2 else (.ok (), st2)) fun st3 =>
          (.ok true, st3)

/-- Continuation of the workflow body after `initialize_webdriver`:
the login result steers between abort-with-exception, the `return False` of
a failed login, and the selected actions. -/
def afterLogin (env : PortalEnv) (settings : AutomationSettings)
    (r : Except WfExc Bool × SvcState) : Except WfExc Bool × SvcState :=
  match r with
  | (.error e, st2) => (.error e, st2)
  | (.ok false, st2) => (.ok false, st2)
  | (.ok true, st2) => runSelectedActions env settings st2

/-- The `try` body of `execute_automation_workflow` (lines 653-685). -/
def workflowBody (env : PortalEnv) (settings : AutomationSettings)
    (st : SvcState) : Except WfExc Bool × SvcState :=
  match initialize_webdriver env st with
  | (.error e, st1) => (.error e, st1)
  | (.ok _, st1) => afterLogin env settings (perform_login env st1)

/-- Model of `GSTPortalService.execute_automation_workflow` (lines 635-700): the body
runs inside `try`; `except Exception` maps any raised exception to `False`;
the `finally` clause closes the driver unless the caller asked for the
browser to stay open. -/
def execute_automation_workflow (env : PortalEnv)
    (settings : AutomationSettings) (keepBrowserOpen : Bool) (st : SvcState) :
    Bool × SvcState :=
  let (r, st1) := workflowBody env settings st
  let result := match r with
    | .ok b => b
    | .error _ => false
  let st2 := if keepBrowserOpen then st1 else close_webdriver env.quitOutcome st1
  (result, st2)


/-! ### Driver-handle preservation lemmas -/

theorem recordStep_driver (st : SvcState) (s : WfStep) :
    (recordStep st s).driver = st.driver := rfl

theorem handle_captcha_input_driver (env : PortalEnv) (st : SvcState) :
    ((handle_captcha_input env st).2).driver = st.driver := by
  unfold handle_captcha_input
  cases h : env.clickCaptchaField <;> simp [recordStep]

theorem handle_post_login_popups_driver (env : PortalEnv) (st : SvcState) :
    (handle_post_login_popups env st).driver = st.driver := by
  unfold handle_post_login_popups
  cases h : env.popupCloseOutcome <;> simp [recordStep]

theorem loginTail_driver (env : PortalEnv) (r : Except WfExc Bool × SvcState) :
    ((loginTail env r).2).driver = (r.2).driver := by
  rcases r with ⟨r, st⟩
  cases r with
  | error e => rfl
  | ok b => cases b <;> simp [loginTail, handle_post_login_popups_driver]

theorem perform_login_driver (env : PortalEnv) (st : SvcState) :
    ((perform_login env st).2).driver = st.driver := by
  unfold perform_login
  cases h2 : env.navPortal <;> simp [recordStep]
  cases h3 : env.clickLoginLink <;> simp [recordStep]
  cases h4 : env.fillCredentials <;>
    simp [recordStep, loginTail_driver, handle_captcha_input_driver]

theorem gstr2bGenerate_driver (env : PortalEnv) (st : SvcState) :
    ((gstr2bGenerate env st).2).driver = st.driver := by
  unfold gstr2bGenerate
  split <;> simp [recordStep]

theorem download_gstr2b_driver (env : PortalEnv) (st : SvcState) :
    ((download_gstr2b env st).2).driver = st.driver := by
  unfold download_gstr2b
  split <;> simp [recordStep, gstr2bGenerate_driver]

theorem returnsDashboardFlow_driver (env : PortalEnv)
    (settings : AutomationSettings) (st : SvcState) :
    ((returnsDashboardFlow env settings st).2).driver = st.driver := by
  unfold returnsDashboardFlow
  cases h1 : env.navReturnsDashboard <;> simp [recordStep]
  cases h2 : env.filterDashboard <;> simp [recordStep]
  cases hd : settings.downloadGstr2b <;> simp [download_gstr2b_driver, recordStep]

theorem navigate_to_credit_ledger_driver (env : PortalEnv) (st : SvcState) :
    ((navigate_to_credit_ledger env st).2).driver = st.driver := by
  unfold navigate_to_credit_ledger
  cases h : env.creditLedgerNav <;> simp [recordStep]

theorem navigate_to_cash_ledger_driver (env : PortalEnv) (st : SvcState) :
    ((navigate_to_cash_ledger env st).2).driver = st.driver := by
  unfold navigate_to_cash_ledger
  cases h : env.cashLedgerNav <;> simp [recordStep]

theorem seqActionUnit_driver (r : Except WfExc Unit × SvcState)
    (k : SvcState → Except WfExc Bool × SvcState)
    (hk : ∀ st, ((k st).2).driver = st.driver) :
    ((seqActionUnit r k).2).driver = (r.2).driver := by
  rcases r with ⟨r, st⟩
  cases r <;> simp [seqActionUnit, hk]

theorem runSelectedActions_driver (env : PortalEnv)
    (settings : AutomationSettings) (st : SvcState) :
    ((runSelectedActions env settings st).2).driver = st.driver := by
  unfold runSelectedActions
  split
  · rfl
  · rw [seqActionUnit_driver]
    · cases h : settings.requiresReturnsDashboard <;>
        simp [returnsDashboardFlow_driver]
    · intro st1
      rw [seqActionUnit_driver]
      · cases h : settings.accessCreditLedger <;>
          simp [navigate_to_credit_ledger_driver]
      · intro st2
        rw [seqActionUnit_driver]
        · cases h : settings.accessCashLedger <;>
            simp [navigate_to_cash_ledger_driver]
        · intro st3
          rfl

theorem afterLogin_driver (env : PortalEnv) (settings : AutomationSettings)
    (r : Except WfExc Bool × SvcState) :
    ((afterLogin env settings r).2).driver = (r.2).driver := by
  rcases r with ⟨r, st⟩
  cases r with
  | error e => rfl
  | ok b => cases b <;> simp [afterLogin, runSelectedActions_driver]

theorem close_webdriver_driver (q : Except WfExc Unit) (st : SvcState) :
    (close_webdriver q st).driver = false := by
  cases hd : st.driver with
  | false => simp [close_webdriver, hd]
  | true =>
    simp only [close_webdriver, hd, if_true]
    cases q <;> rfl

theorem workflowBody_driver_init_ok (env : PortalEnv)
    (settings : AutomationSettings) (st : SvcState)
    (h : env.initDriver = .ok ()) :
    ((workflowBody env settings st).2).driver = true := by
  unfold workflowBody initialize_webdriver
  rw [h]
  simp [afterLogin_driver, perform_login_driver]

/-- C4: when the driver initializes, the login form is reached and filled,
but the post-CAPTCHA poll for the welcome-page URL fragment times out
(`captchaUrlChanged = false`), the login step reports failure as a boolean
and `execute_automation_workflow` returns `False` without attempting any of
the later steps — the Returns-Dashboard, filter, GSTR-2B download, credit
ledger and cash ledger steps never appear in the attempted-step log,
whatever actions were requested and whether or not the browser is kept
open. -/
theorem captcha_timeout_halts_workflow (env : PortalEnv)
    (settings : AutomationSettings) (keepOpen : Bool)
    (h1 : env.initDriver = .ok ()) (h2 : env.navPortal = .ok ())
    (h3 : env.clickLoginLink = .ok ()) (h4 : env.fillCredentials = .ok ())
    (h5 : env.clickCaptchaField = .ok ()) (h6 : env.captchaUrlChanged = false) :
    (execute_automation_workflow env settings keepOpen initState).1 = false ∧
    ∀ s ∈ [WfStep.returnsDash, WfStep.filterDash, WfStep.gstr2bInitialBtn,
        WfStep.gstr2bGenerateBtn, WfStep.creditLedger, WfStep.cashLedger],
      s ∉ (execute_automation_workflow env settings keepOpen initState).2.log := by
  have hbody : workflowBody env settings initState =
      (.ok false, ⟨true, [WfStep.initDriver, WfStep.navPortal, WfStep.clickLogin,
        WfStep.fillCreds, WfStep.clickCaptcha, WfStep.urlPoll]⟩) := by
    simp [workflowBody, initialize_webdriver, perform_login, loginTail,
      afterLogin, handle_captcha_input, recordStep, initState,
      h1, h2, h3, h4, h5, h6]
  cases keepOpen with
  | true =>
    have hres : execute_automation_workflow env settings true initState =
        (false, ⟨true, [WfStep.initDriver, WfStep.navPortal, WfStep.clickLogin,
          WfStep.fillCreds, WfStep.clickCaptcha, WfStep.urlPoll]⟩) := by
      simp [execute_automation_workflow, hbody]
    rw [hres]
    exact ⟨rfl, by decide⟩
  | false =>
    have hres : execute_automation_workflow env settings false initState =
        (false, ⟨false, [WfStep.initDriver, WfStep.navPortal, WfStep.clickLogin,
          WfStep.fillCreds, WfStep.clickCaptcha, WfStep.urlPoll,
          WfStep.closeDriver]⟩) := by
      cases hq : env.quitOutcome <;>
        simp [execute_automation_workflow, hbody, close_webdriver, recordStep, hq]
    rw [hres]
    exact ⟨rfl, by decide⟩

/-- Environment for the C4 witness: every primitive interaction succeeds but
the 90-second CAPTCHA window elapses without the URL changing. -/
def envCaptchaTimeout : PortalEnv :=
  ⟨.ok (), .ok (), .ok (), .ok (), .ok (), false, .ok (), .ok (), .ok (),
    .ok (), .ok (), .ok (), .ok (), .ok ()⟩

/-- C4 witness: at the concrete timed-out environment, with every action
requested, the workflow returns `False` and attempts no later step. -/
theorem captcha_timeout_halts_workflow_witness :
    (execute_automation_workflow envCaptchaTimeout
        ⟨true, true, true, true, true⟩ true initState).1 = false ∧
    ∀ s ∈ [WfStep.returnsDash, WfStep.filterDash, WfStep.gstr2bInitialBtn,
        WfStep.gstr2bGenerateBtn, WfStep.creditLedger, WfStep.cashLedger],
      s ∉ (execute_automation_workflow envCaptchaTimeout
        ⟨true, true, true, true, true⟩ true initState).2.log := by
  exact captcha_timeout_halts_workflow envCaptchaTimeout
    ⟨true, true, true, true, true⟩ true rfl rfl rfl rfl rfl rfl

/-- C8: (1) with `keep_browser_open = False` the `finally` clause of
`execute_automation_workflow` leaves no active driver handle on any exit
path (success, login failure, or any caught exception), from any starting
state; (2) `close_webdriver` tolerates an already-dead browser: with no
handle held it is a no-op (and by its return type it never raises, the
`quit` outcome being swallowed); (3) with `keep_browser_open = True` and a
successful driver initialization the session is intentionally left open. -/
theorem workflow_closes_browser_unless_keep_open :
    (∀ (env : PortalEnv) (settings : AutomationSettings) (st : SvcState),
      ((execute_automation_workflow env settings false st).2).driver = false)
  ∧ (∀ (q : Except WfExc Unit) (st : SvcState), st.driver = false →
      close_webdriver q st = st)
  ∧ (∀ (env : PortalEnv) (settings : AutomationSettings),
      env.initDriver = .ok () →
      ((execute_automation_workflow env settings true initState).2).driver = true) := by
  refine ⟨?_, ?_, ?_⟩
  · intro env settings st
    rcases hw : workflowBody env settings st with ⟨r, st1⟩
    simp [execute_automation_workflow, hw, close_webdriver_driver]
  · intro q st h
    simp [close_webdriver, h]
  · intro env settings h
    rcases hw : workflowBody env settings initState with ⟨r, st1⟩
    have hd := workflowBody_driver_init_ok env settings initState h
    rw [hw] at hd
    simp only [execute_automation_workflow, hw, if_true]
    exact hd

/-- Environment for the C8 witness: every interaction succeeds. -/
def envAllOk : PortalEnv :=
  ⟨.ok (), .ok (), .ok (), .ok (), .ok (), true, .ok (), .ok (), .ok (),
    .ok (), .ok (), .ok (), .ok (), .ok ()⟩

/-- C8 witness: at a concrete fully-successful run with
`keep_browser_open = True`, the driver handle is still held afterwards; the
initialization hypothesis is discharged at the concrete environment. -/
theorem workflow_closes_browser_unless_keep_open_witness :
    ((execute_automation_workflow envAllOk ⟨true, false, false, false, false⟩
        true initState).2).driver = true := by
  exact workflow_closes_browser_unless_keep_open.2.2 envAllOk
    ⟨true, false, false, false, false⟩ rfl

/-- Environment for the C5 failing input: everything succeeds except the
"GENERATE EXCEL FILE TO DOWNLOAD" button, which never resolves with any of
its fallback strategies (the click primitive raises
`ElementNotFoundError`). -/
def envGenerateBtnMissing : PortalEnv :=
  ⟨.ok (), .ok (), .ok (), .ok (), .ok (), true, .ok (), .ok (), .ok (),
    .ok (), .error .elementNotFound, .ok (), .ok (), .ok ()⟩

/-- Environment where the whole download path, generate button included,
succeeds. -/
def envGenerateBtnOk : PortalEnv :=
  ⟨.ok (), .ok (), .ok (), .ok (), .ok (), true, .ok (), .ok (), .ok (),
    .ok (), .ok (), .ok (), .ok (), .ok ()⟩

/-- The C5 run request: only the GSTR-2B download is selected. -/
def settingsDownloadOnly : AutomationSettings := ⟨false, false, true, false, false⟩

/-- C5 (code-bug demonstration): on a run requesting only the report
download, (1) when the generate control never resolves after all fallback
strategies (`envGenerateBtnMissing`), the generate step *is* attempted and
the `ElementNotFoundError` is swallowed by `download_gstr2b` (lines
450-453 log the failure but do not re-raise), so the workflow still returns
`True` — contradicting both the spec ("returns false with an
ElementNotFound-derived final event") and the method docstring ("Raises
GSTPortalNavigationError: If download process fails"); (2) when the control
resolves and is clicked, the workflow returns `True` as the claim states. -/
theorem gstr2b_generate_not_found_workflow_still_true :
    ((execute_automation_workflow envGenerateBtnMissing settingsDownloadOnly
        false initState).1 = true
      ∧ WfStep.gstr2bGenerateBtn ∈
        (execute_automation_workflow envGenerateBtnMissing settingsDownloadOnly
          false initState).2.log)
  ∧ (execute_automation_workflow envGenerateBtnOk settingsDownloadOnly
      false initState).1 = true := by
  decide

/-! ## Date parsing (`datetime.strptime` with format `%d-%m-%Y`)

`utils/validation_utils.py` and the credit-ledger GUI component parse dates
with the Python call `datetime.strptime(s, "%d-%m-%Y")` (`DEFAULT_DATE_FORMAT`
in `config/settings.py`).  The CPython `_strptime` module compiles this format to the
regex `(3[01]|[12]\d|0[1-9]|[1-9])-(1[0-2]|0[1-9]|[1-9])-(\d\d\d\d)`
anchored on the whole string, then the `datetime` constructor checks the day
against the month length (with leap years) and requires year >= 1.  All
string work is done on character lists so that every definition evaluates
by `decide`. -/

structure PyDate where
  day : Nat
  month : Nat
  year : Nat
  deriving DecidableEq, Repr

/-- Python `str.strip()` on the character list. -/
def trimChars (cs : List Char) : List Char :=
  ((cs.dropWhile Char.isWhitespace).reverse.dropWhile Char.isWhitespace).reverse

/-- Python `str.strip()`. -/
def pyStrip (s : String) : String := ⟨trimChars s.data⟩

/-- Python `str.split("-")` for the one-character separator. -/
def splitCharsOnDash : List Char → List (List Char)
  | [] => [[]]
  | c :: rest =>
    let r := splitCharsOnDash rest
    if c = '-' then [] :: r
    else
      match r with
      | h :: t => (c :: h) :: t
      | [] => [[c]]

def natOfDigits (cs : List Char) : Nat :=
  cs.foldl (fun n c => n * 10 + (c.toNat - 48)) 0

/-- The `%d` field: one or two digits, value 1..31 (strptime regex
`3[01]|[12]\d|0[1-9]|[1-9]`). -/
def parseDayField (cs : List Char) : Option Nat :=
  if cs.all Char.isDigit ∧ (cs.length = 1 ∨ cs.length = 2) then
    let v := natOfDigits cs
    if 1 ≤ v ∧ v ≤ 31 then some v else none
  else none

/-- The `%m` field: one or two digits, value 1..12 (strptime regex
`1[0-2]|0[1-9]|[1-9]`). -/
def parseMonthField (cs : List Char) : Option Nat :=
  if cs.all Char.isDigit ∧ (cs.length = 1 ∨ cs.length = 2) then
    let v := natOfDigits cs
    if 1 ≤ v ∧ v ≤ 12 then some v else none
  else none

/-- The `%Y` field: exactly four digits (strptime regex `\d\d\d\d`); the
`datetime` constructor additionally requires `MINYEAR = 1 <= year`. -/
def parseYearField (cs : List Char) : Option Nat :=
  if cs.all Char.isDigit ∧ cs.length = 4 then
    let v := natOfDigits cs
    if 1 ≤ v then some v else none
  else none

def isLeapYear (y : Nat) : Bool :=
  y % 4 = 0 && (y % 100 ≠ 0 || y % 400 = 0)

def daysInMonth (y m : Nat) : Nat :=
  if m = 2 then (if isLeapYear y then 29 else 28)
  else if m = 4 ∨ m = 6 ∨ m = 9 ∨ m = 11 then 30
  else 31

/-- Model of `datetime.strptime(s, "%d-%m-%Y")`: `some` on success, `none` when a
`ValueError` is raised (pattern mismatch or impossible calendar date). -/
def strptimeDMY (s : String) : Option PyDate :=
  match splitCharsOnDash s.data with
  | [d, m, y] =>
    match parseDayField d, parseMonthField m, parseYearField y with
    | some dv, some mv, some yv =>
      if dv ≤ daysInMonth yv mv then some ⟨dv, mv, yv⟩ else none
    | _, _, _ => none
  | _ => none

/-- Model of `datetime` comparison: lexicographic on (year, month, day). -/
def pyDateLt (a b : PyDate) : Bool :=
  a.year < b.year ∨ (a.year = b.year ∧
    (a.month < b.month ∨ (a.month = b.month ∧ a.day < b.day)))

/-! ## `utils/validation_utils.py`: `ValidatedResult` and the validators -/

/-- Model of `ValidatedResult` (lines 24-75): validity flag plus accumulated error
and warning messages. -/
structure ValidatedResult where
  isValid : Bool
  errors : List String
  warnings : List String
  deriving DecidableEq, Repr

/-- Model of `ValidatedResult.add_error` (lines 45-48). -/
def ValidatedResult.addError (r : ValidatedResult) (m : String) : ValidatedResult :=
  { r with errors := r.errors ++ [m], isValid := false }

/-- Model of `validate_date_format` (lines 164-194) at the fixed default format
`%d-%m-%Y`: reject a non-string never arises in the typed model; strip,
reject empty, then reject a `strptime` failure. -/
def validate_date_format (dateStr : String) (fieldName : String) :
    ValidatedResult :=
  let r : ValidatedResult := ⟨true, [], []⟩
  let d := pyStrip dateStr
  if d = "" then r.addError (fieldName ++ " cannot be empty")
  else
    match strptimeDMY d with
    | some _ => r
    | none => r.addError (fieldName ++ " format is invalid. Expected format: %d-%m-%Y")

/-- Model of `validate_date_range` (lines 196-239) at the fixed default format:
validate both formats, collect their errors and fail if any; otherwise
re-parse both stripped dates and compare, rejecting `from > to` when
`allow_same_date` and `from >= to` otherwise. -/
def validate_date_range (fromDate toDate : String) (allowSameDate : Bool) :
    ValidatedResult :=
  let fromV := validate_date_format fromDate "From Date"
  let toV := validate_date_format toDate "To Date"
  let r : ValidatedResult := ⟨true, fromV.errors ++ toV.errors, []⟩
  if r.errors ≠ [] then { r with isValid := false }
  else
    match strptimeDMY (pyStrip fromDate), strptimeDMY (pyStrip toDate) with
    | some fd, some td =>
      if allowSameDate then
        if pyDateLt td fd then r.addError "From Date cannot be later than To Date"
        else r
      else
        if pyDateLt td fd ∨ fd = td then
          r.addError "From Date must be earlier than To Date"
        else r
    | _, _ => r.addError "Could not compare dates"

theorem pyDateLt_irrefl (d : PyDate) : pyDateLt d d = false := by
  simp [pyDateLt]

theorem strptimeDMY_empty : strptimeDMY "" = none := rfl

/-- C6: for `validate_date_range` at the default format with
`allow_same_date = True`: the pair `31-12-2024` / `01-01-2024` is rejected
(from later than to); every pair with equal, parseable from- and to-dates is
accepted; and any pair in which either date fails to parse as `%d-%m-%Y` is
rejected. -/
theorem date_range_validation_properties :
    (validate_date_range "31-12-2024" "01-01-2024" true).isValid = false
  ∧ (∀ (s : String) (d : PyDate), strptimeDMY (pyStrip s) = some d →
      (validate_date_range s s true).isValid = true)
  ∧ (∀ (s t : String),
      (strptimeDMY (pyStrip s) = none ∨ strptimeDMY (pyStrip t) = none) →
      (validate_date_range s t true).isValid = false) := by
  refine ⟨by decide, ?_, ?_⟩
  · intro s d h
    have hne : ¬ pyStrip s = "" := by
      intro he
      rw [he, strptimeDMY_empty] at h
      exact Option.noConfusion h
    simp [validate_date_range, validate_date_format, hne, h, pyDateLt_irrefl]
  · intro s t h
    rcases h with h | h
    · by_cases he : pyStrip s = ""
      · simp [validate_date_range, validate_date_format, ValidatedResult.addError,
          he, List.append_eq_nil]
      · simp [validate_date_range, validate_date_format, ValidatedResult.addError,
          he, h, List.append_eq_nil]
    · by_cases he : pyStrip t = ""
      · simp [validate_date_range, validate_date_format, ValidatedResult.addError,
          he, List.append_eq_nil]
      · simp [validate_date_range, validate_date_format, ValidatedResult.addError,
          he, h, List.append_eq_nil]

/-- C6 witness: the same-date pair `15-03-2025` / `15-03-2025` passes, via
the second conjunct discharged at the concrete parse. -/
theorem date_range_validation_properties_witness :
    (validate_date_range "15-03-2025" "15-03-2025" true).isValid = true := by
  exact date_range_validation_properties.2.1 "15-03-2025" ⟨15, 3, 2025⟩ (by decide)

/-! ## Index validation (`validate_index_in_range`, C7) -/

/-- Model of `config/settings.py` lines 70-73. -/
def FINANCIAL_YEARS : List String :=
  ["2025-26", "2024-25", "2023-24", "2022-23",
   "2021-22", "2020-21", "2019-20", "2018-19"]

/-- Model of `validate_index_in_range` (lines 395-418): Python ints are modelled as
`Int` (the `isinstance` guard never fires in the typed model); negative
indices and indices `>= max_index` are rejected. -/
def validate_index_in_range (index maxIndex : Int) (fieldName : String) :
    ValidatedResult :=
  if index < 0 then
    (⟨true, [], []⟩ : ValidatedResult).addError (fieldName ++ " cannot be negative")
  else if index ≥ maxIndex then
    (⟨true, [], []⟩ : ValidatedResult).addError
      (fieldName ++ " (" ++ toString index ++ ") is out of range (0 to " ++
        toString (maxIndex - 1) ++ ")")
  else ⟨true, [], []⟩

/-- Model of `validate_financial_year_index` (lines 489-499):
`validate_index_in_range(index, len(FINANCIAL_YEARS), "Financial Year Index")`. -/
def validate_financial_year_index (index : Int) : ValidatedResult :=
  validate_index_in_range index (FINANCIAL_YEARS.length : Int) "Financial Year Index"

/-- C7: over the 8-element `FINANCIAL_YEARS` list, every integer index in
[0, 8) is accepted (in particular 7), index 8 is rejected, and every
negative index (in particular -1) is rejected. -/
theorem financial_year_index_validation :
    FINANCIAL_YEARS.length = 8
  ∧ (∀ i : Int, 0 ≤ i → i < 8 → (validate_financial_year_index i).isValid = true)
  ∧ (validate_financial_year_index 7).isValid = true
  ∧ (validate_financial_year_index 8).isValid = false
  ∧ (∀ i : Int, i < 0 → (validate_financial_year_index i).isValid = false)
  ∧ (validate_financial_year_index (-1)).isValid = false := by
  have hlen : ((FINANCIAL_YEARS.length : Nat) : Int) = 8 := by decide
  refine ⟨by decide, ?_, by decide, by decide, ?_, by decide⟩
  · intro i h0 h8
    unfold validate_financial_year_index validate_index_in_range
    rw [hlen, if_neg (by omega), if_neg (by omega)]
  · intro i hneg
    unfold validate_financial_year_index validate_index_in_range
    rw [if_pos hneg]
    rfl

/-- C7 witness: index 7 is in range, via the universally quantified part at
a concrete index. -/
theorem financial_year_index_validation_witness :
    (validate_financial_year_index 5).isValid = true := by
  exact financial_year_index_validation.2.1 5 (by decide) (by decide)

/-! ## Client data models (`models/client_data.py`) -/

/-- Model of `ClientCredentials` (lines 13-50). -/
structure ClientCredentials where
  client_name : String
  username : String
  password : String
  deriving DecidableEq, Repr

/-- Model of `ClientCredentials.is_valid` (lines 30-41): all three fields non-empty
after trimming (Python `bool(x and x.strip())`). -/
def ClientCredentials.is_valid (c : ClientCredentials) : Bool :=
  pyStrip c.client_name ≠ "" && pyStrip c.username ≠ "" && pyStrip c.password ≠ ""

/-- Model of `ReturnsDashboardOptions` (lines 99-127); Python ints as `Int`. -/
structure ReturnsDashboardOptions where
  financial_year_index : Int
  quarter_index : Int
  month_index : Int
  deriving DecidableEq, Repr

/-- Model of `ReturnsDashboardOptions.is_valid` (lines 116-127). -/
def ReturnsDashboardOptions.is_valid (o : ReturnsDashboardOptions) : Bool :=
  o.financial_year_index ≥ 0 && o.quarter_index ≥ 0 && o.month_index ≥ 0

/-! ## Credit-ledger GUI component validation
(`gui/components/credit_ledger_options.py`) -/

/-- Model of `CreditLedgerOptionsComponent.validate_date_format` (lines 296-319):
reject the empty string, require the regex shape
`^\d{1,2}-\d{1,2}-\d{4}$`, then require `strptime` to succeed. -/
def componentDateFormatOk (dateStr : String) : Bool :=
  if dateStr = "" then false
  else
    match splitCharsOnDash dateStr.data with
    | [d, m, y] =>
      (decide (d.length = 1) || decide (d.length = 2)) && d.all Char.isDigit &&
      (decide (m.length = 1) || decide (m.length = 2)) && m.all Char.isDigit &&
      decide (y.length = 4) && y.all Char.isDigit &&
      (strptimeDMY dateStr).isSome
    | _ => false

/-- Model of `CreditLedgerOptionsComponent.validate_date_range` (lines 321-354),
applied to the stripped field values (`get_from_date`/`get_to_date` strip):
empty checks, per-field format checks, then the `from <= to` comparison. -/
def componentValidateDateRange (fromRaw toRaw : String) : Bool × String :=
  let fromDate := pyStrip fromRaw
  let toDate := pyStrip toRaw
  if fromDate = "" then (false, "From date cannot be empty")
  else if toDate = "" then (false, "To date cannot be empty")
  else if !componentDateFormatOk fromDate then
    (false, "From date format is invalid. Use %d-%m-%Y format.")
  else if !componentDateFormatOk toDate then
    (false, "To date format is invalid. Use %d-%m-%Y format.")
  else
    match strptimeDMY fromDate, strptimeDMY toDate with
    | some fd, some td =>
      if pyDateLt td fd then (false, "From date cannot be later than To date")
      else (true, "")
    | _, _ => (false, "Invalid date values")

/-! ## Pre-run configuration validation (`gui/main_window.py`, C9) -/

/-- Model of `ReturnsOptionsComponent.validate_selections`
(`gui/components/returns_options.py` lines 298-319). -/
def returnsValidateSelections (o : ReturnsDashboardOptions) : Bool × String :=
  if !o.is_valid then (false, "Invalid Returns Dashboard selections")
  else if o.financial_year_index < 0 then (false, "Financial year must be selected")
  else if o.quarter_index < 0 then (false, "Quarter must be selected")
  else if o.month_index < 0 then (false, "Month must be selected")
  else (true, "")

/-- Model of `MainWindow._validate_automation_config` (lines 305-333): credentials,
action selection, Returns-Dashboard options (when required) and the
credit-ledger date range (when credit-ledger access is selected) are checked
in order; the first failure aborts with its message. -/
def validateAutomationConfig (creds : Option ClientCredentials)
    (settings : AutomationSettings) (ro : ReturnsDashboardOptions)
    (fromRaw toRaw : String) : Bool × String :=
  match creds with
  | none => (false, "Valid credentials are required. Please select a client or enter username and password manually.")
  | some c =>
    if !c.is_valid then
      (false, "Valid credentials are required. Please select a client or enter username and password manually.")
    else if !settings.hasActionsSelected then
      (false, "At least one automation action must be selected.")
    else
      let roCheck : Bool × String :=
        if settings.requiresReturnsDashboard then returnsValidateSelections ro
        else (true, "")
      if !roCheck.1 then
        (false, "Returns Dashboard options invalid: " ++ roCheck.2)
      else
        let clCheck : Bool × String :=
          if settings.accessCreditLedger then
            componentValidateDateRange fromRaw toRaw
          else (true, "")
        if !clCheck.1 then
          (false, "Credit Ledger options invalid: " ++ clCheck.2)
        else (true, "")

/-- Outcome of `MainWindow._start_automation_thread` (lines 374-403): on a
failed validation a "Configuration Error" dialog is shown and the method
returns before the automation thread — and hence before
`initialize_webdriver`, the only place a browser session is opened — is ever
started; otherwise the thread starts. -/
inductive StartOutcome where
  | configError : String → StartOutcome
  | started : StartOutcome
  deriving DecidableEq, Repr

def isConfigError : StartOutcome → Bool
  | .configError _ => true
  | .started => false

/-- Model of `MainWindow._start_automation_thread`, up to the decision between the
"Configuration Error" early return and starting the automation thread. -/
def startAutomationThread (creds : Option ClientCredentials)
    (settings : AutomationSettings) (ro : ReturnsDashboardOptions)
    (fromRaw toRaw : String) : StartOutcome :=
  let v := validateAutomationConfig creds settings ro fromRaw toRaw
  if v.1 then .started else .configError v.2

/-- C9: whenever credit-ledger access is selected and the from-date does not
pass the component fixed-format date validation (any unparseable date such
as `not-a-date`), `_start_automation_thread` ends in the
"Configuration Error" path — before any browser session is opened —
whatever the credentials, other settings, returns options and to-date are. -/
theorem invalid_ledger_date_rejected_before_browser
    (creds : Option ClientCredentials) (settings : AutomationSettings)
    (ro : ReturnsDashboardOptions) (fromRaw toRaw : String)
    (hsel : settings.accessCreditLedger = true)
    (hbad : componentDateFormatOk (pyStrip fromRaw) = false) :
    isConfigError (startAutomationThread creds settings ro fromRaw toRaw) = true := by
  cases creds with
  | none => rfl
  | some c =>
    by_cases hv : c.is_valid
    case neg =>
      simp [startAutomationThread, validateAutomationConfig, isConfigError, hv]
    case pos =>
      by_cases ha : settings.hasActionsSelected
      case neg =>
        simp [startAutomationThread, validateAutomationConfig, isConfigError, hv, ha]
      case pos =>
        have hcl : (componentValidateDateRange fromRaw toRaw).1 = false := by
          unfold componentValidateDateRange
          by_cases he : pyStrip fromRaw = ""
          · simp [he]
          · by_cases he2 : pyStrip toRaw = ""
            · simp [he, he2]
            · simp [he, he2, hbad]
        rcases hro : (if settings.requiresReturnsDashboard then
            returnsValidateSelections ro else (true, "")) with ⟨rok, rmsg⟩
        cases rok with
        | false =>
          simp [startAutomationThread, validateAutomationConfig, isConfigError,
            hv, ha, hro]
        | true =>
          simp [startAutomationThread, validateAutomationConfig, isConfigError,
            hv, ha, hro, hsel, hcl]

/-- C9 witness: concrete valid credentials, credit-ledger access selected,
`fromDate = "not-a-date"`: the run is rejected as a configuration error. -/
theorem invalid_ledger_date_rejected_before_browser_witness :
    isConfigError (startAutomationThread
      (some ⟨"Acme", "gstuser", "secret123"⟩)
      ⟨false, false, false, true, false⟩
      ⟨0, 0, 0⟩ "not-a-date" "15-03-2025") = true := by
  exact invalid_ledger_date_rejected_before_browser
    (some ⟨"Acme", "gstuser", "secret123"⟩)
    ⟨false, false, false, true, false⟩
    ⟨0, 0, 0⟩ "not-a-date" "15-03-2025" rfl (by decide)

/-! ## `ClientDataManager` (`models/client_data.py`, C10)

The manager field `self._clients: Dict[str, ClientCredentials]` is modelled as
an insertion-ordered association list with the Python-dict update semantics:
overwriting an existing key replaces the value in place, a new key is
appended. -/

abbrev Manager := List (String × ClientCredentials)

/-- Model of `self._clients[key] = value` on a Python dict. -/
def dictInsert : Manager → String → ClientCredentials → Manager
  | [], k, v => [(k, v)]
  | (k2, v2) :: rest, k, v =>
    if k2 = k then (k, v) :: rest else (k2, v2) :: dictInsert rest k v

/-- Model of `ClientDataManager.add_client` (lines 233-241): store the record under
its client name only when it satisfies `is_valid`. -/
def add_client (m : Manager) (c : ClientCredentials) : Manager :=
  if c.is_valid then dictInsert m c.client_name c else m

/-- Model of `ClientDataManager.get_client` (lines 243-253): `self._clients.get(name)`. -/
def get_client : Manager → String → Option ClientCredentials
  | [], _ => none
  | (k, v) :: rest, name => if k = name then some v else get_client rest name

/-- Model of `credentials.get(key, "")` on the inner per-client dict. -/
def dictGetD (d : List (String × String)) (k : String) (dflt : String) : String :=
  match d.find? (fun p => p.1 == k) with
  | some p => p.2
  | none => dflt

/-- The `ClientCredentials(client_name=..., username=credentials.get(...),
password=credentials.get(...))` construction inside `update_from_dict`. -/
def mkClientFromEntry (name : String) (creds : List (String × String)) :
    ClientCredentials :=
  ⟨name, dictGetD creds "username" "", dictGetD creds "password" ""⟩

/-- The loop of `ClientDataManager.update_from_dict` (lines 277-305),
carrying `added_count` and the store: a constructed record is added (and
counted) only when valid, otherwise the entry is skipped. -/
def update_from_dict_aux :
    List (String × List (String × String)) → Nat → Manager → Nat × Manager
  | [], n, m => (n, m)
  | (name, creds) :: rest, n, m =>
    if (mkClientFromEntry name creds).is_valid then
      update_from_dict_aux rest (n + 1) (add_client m (mkClientFromEntry name creds))
    else
      update_from_dict_aux rest n m

/-- Model of `ClientDataManager.update_from_dict`: clear the store, then run the
loop; returns the count of clients added together with the resulting
store. -/
def update_from_dict (input : List (String × List (String × String))) :
    Nat × Manager :=
  update_from_dict_aux input 0 []

/-- The store invariant: every record retrievable through `get_client`
satisfies `is_valid`. -/
def managerWF (m : Manager) : Prop :=
  ∀ name c, get_client m name = some c → c.is_valid = true

def managerKeys (m : Manager) : List String := m.map Prod.fst

theorem get_client_dictInsert (m : Manager) (k : String) (v : ClientCredentials)
    (name : String) :
    get_client (dictInsert m k v) name =
      if k = name then some v else get_client m name := by
  induction m with
  | nil => by_cases hn : k = name <;> simp [dictInsert, get_client, hn]
  | cons p rest ih =>
    rcases p with ⟨k2, v2⟩
    by_cases hk : k2 = k
    · subst hk
      by_cases hn : k2 = name
      · subst hn
        simp [dictInsert, get_client]
      · simp [dictInsert, get_client, hn]
    · by_cases hn : k2 = name
      · subst hn
        have hkn : ¬ k = k2 := fun h => hk h.symm
        simp [dictInsert, get_client, hk, hkn]
      · simp [dictInsert, get_client, hk, hn, ih]

theorem managerWF_add_client (m : Manager) (c : ClientCredentials)
    (h : managerWF m) : managerWF (add_client m c) := by
  intro name c2 hc
  unfold add_client at hc
  by_cases hv : c.is_valid = true
  · rw [if_pos hv, get_client_dictInsert] at hc
    by_cases hn : c.client_name = name
    · rw [if_pos hn] at hc
      cases hc
      exact hv
    · rw [if_neg hn] at hc
      exact h name c2 hc
  · rw [if_neg hv] at hc
    exact h name c2 hc

theorem managerKeys_dictInsert_fresh (m : Manager) (k : String)
    (v : ClientCredentials) (h : k ∉ managerKeys m) :
    managerKeys (dictInsert m k v) = managerKeys m ++ [k] := by
  induction m with
  | nil => simp [dictInsert, managerKeys]
  | cons p rest ih =>
    rcases p with ⟨k2, v2⟩
    simp only [managerKeys, List.map_cons, List.mem_cons] at h
    push_neg at h
    obtain ⟨h1, h2⟩ := h
    have hk : ¬ k2 = k := fun he => h1 he.symm
    have ih2 := ih h2
    simp only [managerKeys] at ih2
    simp [dictInsert, managerKeys, hk, ih2]

theorem dictInsert_length_fresh (m : Manager) (k : String)
    (v : ClientCredentials) (h : k ∉ managerKeys m) :
    (dictInsert m k v).length = m.length + 1 := by
  have hlen := congrArg List.length (managerKeys_dictInsert_fresh m k v h)
  simpa [managerKeys] using hlen

theorem managerKeys_dictInsert_mem (m : Manager) (k : String)
    (v : ClientCredentials) (x : String)
    (hx : x ∈ managerKeys (dictInsert m k v)) :
    x ∈ managerKeys m ∨ x = k := by
  induction m with
  | nil =>
    have hx2 : x ∈ ([k] : List String) := hx
    rw [List.mem_singleton] at hx2
    exact Or.inr hx2
  | cons p rest ih =>
    rcases p with ⟨k2, v2⟩
    by_cases hk : k2 = k
    · subst hk
      simp only [dictInsert, if_pos rfl] at hx
      have hx2 : x ∈ k2 :: managerKeys rest := hx
      rcases List.mem_cons.mp hx2 with h | h
      · exact Or.inr h
      · exact Or.inl (List.mem_cons_of_mem _ h)
    · simp only [dictInsert, if_neg hk] at hx
      have hx2 : x ∈ k2 :: managerKeys (dictInsert rest k v) := hx
      rcases List.mem_cons.mp hx2 with h | h
      · exact Or.inl (h ▸ List.mem_cons_self _ _)
      · rcases ih h with h2 | h2
        · exact Or.inl (List.mem_cons_of_mem _ h2)
        · exact Or.inr h2

theorem update_aux_count (input : List (String × List (String × String))) :
    ∀ (n : Nat) (m : Manager),
      (input.map Prod.fst).Nodup →
      (∀ k ∈ input.map Prod.fst, k ∉ managerKeys m) →
      (update_from_dict_aux input n m).1 + m.length =
        (update_from_dict_aux input n m).2.length + n := by
  induction input with
  | nil =>
    intro n m _ _
    simp [update_from_dict_aux]
    omega
  | cons e rest ih =>
    intro n m hnd hdisj
    rcases e with ⟨name, creds⟩
    simp only [List.map_cons, List.nodup_cons] at hnd
    obtain ⟨hnotin, hnd2⟩ := hnd
    have hname : name ∉ managerKeys m := hdisj name (by simp)
    have hdisj2 : ∀ k ∈ rest.map Prod.fst, k ∉ managerKeys m :=
      fun k hk => hdisj k (by simp [hk])
    unfold update_from_dict_aux
    by_cases hv : (mkClientFromEntry name creds).is_valid = true
    · rw [if_pos hv]
      have hkeys : ∀ k ∈ rest.map Prod.fst,
          k ∉ managerKeys (add_client m (mkClientFromEntry name creds)) := by
        intro k hk hmem
        unfold add_client at hmem
        rw [if_pos hv] at hmem
        rcases managerKeys_dictInsert_mem m _ _ k hmem with h2 | h2
        · exact hdisj2 k hk h2
        · have h3 : k = name := h2
          exact hnotin (h3 ▸ hk)
      have hlen : (add_client m (mkClientFromEntry name creds)).length =
          m.length + 1 := by
        unfold add_client
        rw [if_pos hv]
        exact dictInsert_length_fresh m name _ hname
      have hrec := ih (n + 1) (add_client m (mkClientFromEntry name creds)) hnd2 hkeys
      omega
    · rw [if_neg hv]
      exact ih n m hnd2 hdisj2

theorem update_aux_WF (input : List (String × List (String × String))) :
    ∀ (n : Nat) (m : Manager), managerWF m →
      managerWF (update_from_dict_aux input n m).2 := by
  induction input with
  | nil =>
    intro n m h
    exact h
  | cons e rest ih =>
    intro n m h
    rcases e with ⟨name, creds⟩
    unfold update_from_dict_aux
    by_cases hv : (mkClientFromEntry name creds).is_valid = true
    · rw [if_pos hv]
      exact ih _ _ (managerWF_add_client m _ h)
    · rw [if_neg hv]
      exact ih _ _ h

/-- C10: the credential-store invariant.  (1) The empty store is
well-formed; (2) `add_client` preserves well-formedness, since it stores a
record only when it satisfies `is_valid`; (3) any store produced by
`update_from_dict` is well-formed, so every record retrievable through
`get_client` satisfies `is_valid`; (4) on input with distinct client names
(guaranteed in the code, whose input is a Python dict),
`update_from_dict` returns exactly the number of records stored. -/
theorem client_manager_invariants :
    managerWF ([] : Manager)
  ∧ (∀ (m : Manager) (c : ClientCredentials),
      managerWF m → managerWF (add_client m c))
  ∧ (∀ input, managerWF (update_from_dict input).2)
  ∧ (∀ input, (input.map Prod.fst).Nodup →
      (update_from_dict input).1 = (update_from_dict input).2.length) := by
  refine ⟨?_, managerWF_add_client, ?_, ?_⟩
  · intro name c h
    exact Option.noConfusion h
  · intro input
    exact update_aux_WF input 0 [] (fun name c h => Option.noConfusion h)
  · intro input hnd
    have hcount := update_aux_count input 0 [] hnd (by intro k hk; simp [managerKeys])
    simp only [List.length_nil] at hcount
    unfold update_from_dict
    omega

/-- C10 witness: a two-entry input whose second entry lacks a password (so
it is skipped); the returned count equals the number of stored records,
via the counting conjunct at a concrete input with distinct names. -/
theorem client_manager_invariants_witness :
    (update_from_dict [("Acme", [("username", "u1"), ("password", "p1")]),
      ("Beta", [("username", "u2")])]).1 =
    (update_from_dict [("Acme", [("username", "u1"), ("password", "p1")]),
      ("Beta", [("username", "u2")])]).2.length := by
  exact client_manager_invariants.2.2.2 _ (by decide)
